import Mathlib

/-!
# Verification of the CX case-study core (theme extraction and query routing)

Shallow embedding of the decision logic of the two subsystems:

* `1_complaints_tool/theme_extractor.py` — cluster-count policy, theme
  records, heuristic labelling, in-place `theme_id` mutation;
* `2_ai_data_analyzer/router.py`, `quant_handler.py`, `qual_handler.py`,
  `llm_client.py` — intent classification, quantitative dispatch and
  aggregation, retrieval + summarisation, offline completion fallback.

Python regular-expression matching (the only regex forms the source uses:
case-insensitive literals, `\b` word boundaries, `\d*`, `\s*`, and
alternation evaluated left to right) is embedded by a small explicit
matcher.  External collaborators (pandas date parsing, the TF-IDF
vectoriser, KMeans, live LLM providers) are parameters of the embedding,
constrained only by hypotheses that restate their documented behaviour.
-/

namespace CX

/-! ## Python string primitives -/

/-- Python `\s` (ASCII fragment): the whitespace recognised by `str.strip`. -/
def isPySpace (c : Char) : Bool :=
  c = ' ' || c = '\t' || c = '\n' || c = '\r' || c = '\x0b' || c = '\x0c'

/-- Python `\w`: alphanumeric or underscore. -/
def isWordChar (c : Char) : Bool := c.isAlphanum || c = '_'

/-- Python `str.lower`. -/
def lowerStr (s : String) : String := ⟨s.data.map Char.toLower⟩

/-- Substring test on char lists (`needle in hay` for Python strings). -/
def containsAux (needle : List Char) : List Char → Bool
  | [] => needle.isEmpty
  | c :: rest => List.isPrefixOf needle (c :: rest) || containsAux needle rest

/-- Python `needle in hay` (case-sensitive substring). -/
def strContains (hay needle : String) : Bool := containsAux needle.data hay.data

/-- Case-insensitive substring test (`case=False` in pandas `str.contains`). -/
def strContainsCI (hay needle : String) : Bool :=
  strContains (lowerStr hay) (lowerStr needle)

/-! ## Regex fragment

The source's patterns consist of case-insensitive literal runs, `\d*`,
`\s*`, and `\b` at the start and/or the end of each alternative.  A
pattern is a token list bracketed by two boundary flags.  Alternation is a
pattern list tried in order at each position, as `re` does (leftmost
position first, then alternative order). -/

inductive RTok where
  | lit (c : Char)
  | digits
  | spaces
deriving DecidableEq

structure RPat where
  bL : Bool
  toks : List RTok
  bR : Bool
deriving DecidableEq

def isWordOpt : Option Char → Bool
  | none => false
  | some c => isWordChar c

/-- Boundary `\b` holds between two (optional) characters iff exactly one
side is a word character. -/
def atBoundary (a b : Option Char) : Bool := isWordOpt a != isWordOpt b

/-- Match a token list at the current position.  `prev` is the character
just before the position (`none` at string start).  On success returns the
new `prev` (last consumed character) and the remaining input.  `\d*` and
`\s*` are matched greedily; in every pattern of this code base the token
after them cannot overlap with their character class, so greedy matching
coincides with backtracking semantics. -/
def matchToks : List RTok → Option Char → List Char → Option (Option Char × List Char)
  | [], p, rest => some (p, rest)
  | .lit c :: ts, _, x :: rest =>
      if x.toLower = c.toLower then matchToks ts (some x) rest else none
  | .lit _ :: _, _, [] => none
  | .digits :: ts, p, rest =>
      let d := rest.takeWhile Char.isDigit
      matchToks ts (match d.getLast? with | some c => some c | none => p) (rest.dropWhile Char.isDigit)
  | .spaces :: ts, p, rest =>
      let d := rest.takeWhile isPySpace
      matchToks ts (match d.getLast? with | some c => some c | none => p) (rest.dropWhile isPySpace)

/-- Match one pattern at the current position, enforcing its boundaries. -/
def matchPatAt (pat : RPat) (prev : Option Char) (s : List Char) :
    Option (Option Char × List Char) :=
  if pat.bL && !atBoundary prev s.head? then none
  else
    match matchToks pat.toks prev s with
    | none => none
    | some (p', rest) =>
        if pat.bR && !atBoundary p' rest.head? then none else some (p', rest)

/-- First alternative that matches at this position (regex alternation). -/
def firstMatch (pats : List RPat) (prev : Option Char) (s : List Char) :
    Option (Option Char × List Char) :=
  pats.findSome? (fun p => matchPatAt p prev s)

/-- Scan of `re.findall` for an alternation: scan left to right, count
non-overlapping matches, resume after each match.  `fuel` bounds the scan;
`s.length` always suffices because every pattern of this code base starts
with a literal and hence consumes at least one character (the defensive
`else` branch is unreachable for them). -/
def scanCount (pats : List RPat) : Nat → Option Char → List Char → Nat
  | 0, _, _ => 0
  | _ + 1, _, [] => 0
  | fuel + 1, prev, c :: rest =>
      match firstMatch pats prev (c :: rest) with
      | some (p', rest') =>
          if rest'.length ≤ rest.length then 1 + scanCount pats fuel p' rest'
          else 1 + scanCount pats fuel (some c) rest
      | none => scanCount pats fuel (some c) rest

/-- Value of `len(re.findall(alternation, s))`. -/
def findallCount (pats : List RPat) (s : String) : Nat :=
  scanCount pats s.data.length none s.data

/-- Truth of `re.search(alternation, s) is not None`.  (Our patterns cannot match
the empty string, so the end-of-string position never matches.) -/
def searchAux (pats : List RPat) : Option Char → List Char → Bool
  | _, [] => false
  | prev, c :: rest => (firstMatch pats prev (c :: rest)).isSome || searchAux pats (some c) rest

def reSearch (pats : List RPat) (s : String) : Bool := searchAux pats none s.data

/-- Literal token run (matched case-insensitively, as all the source's
regexes carry `re.IGNORECASE` or are applied to lowercased text). -/
def plit (s : String) : List RTok := s.data.map RTok.lit

/-- Pattern `\b…\b`. -/
def pw (s : String) : RPat := ⟨true, plit s, true⟩

/-- Pattern `\b…` (no trailing boundary). -/
def pl (s : String) : RPat := ⟨true, plit s, false⟩

/-! ## `router.py` — intent classification -/

/-- List `_QUANT_PATTERNS` (router.py lines 19–28), in source order. -/
def QUANT_PATS : List RPat :=
  [pw "how many", pw "how much", pw "total", pw "count",
   pw "number of", pw "percentage", pw "percent", pw "rate",
   pw "frequency", pw "distribution", pw "breakdown", pw "trend",
   ⟨true, plit "top " ++ [RTok.digits, RTok.spaces] ++ plit "theme", false⟩,
   pw "most common", pw "largest", pw "highest",
   pw "lowest", pw "average", pw "mean", pw "median",
   pw "by channel", pw "by month", pw "by week",
   pw "by product", pw "by severity", pw "which channel",
   pw "which product", pw "over time", pw "time series"]

/-- List `_QUAL_PATTERNS` (router.py lines 31–38), in source order. -/
def QUAL_PATS : List RPat :=
  [pw "why", pw "what are customers saying", pw "describe",
   pw "summarise", pw "summarize", pw "examples",
   pw "show me examples", pw "what kind of", pw "explain",
   pw "issues with", pw "complaints about", pw "feelings",
   pw "sentiment", pw "pain point", pw "what is wrong",
   pw "what do customers", pw "what are the main"]

/-- Tie-break `\b(how|many|count|total|top|which|show)\b` (router.py line 58). -/
def TIE_PATS : List RPat :=
  [pw "how", pw "many", pw "count", pw "total", pw "top", pw "which", pw "show"]

/-- Function `classify` (router.py lines 44–60). -/
def classify (query : String) : String :=
  let quantHits := findallCount QUANT_PATS query
  let qualHits := findallCount QUAL_PATS query
  if qualHits < quantHits then "quant"
  else if quantHits < qualHits then "qual"
  else if reSearch TIE_PATS query then "quant"
  else "qual"

/-- Modelled from the claim's words (not from the source): each pattern
counts at most once per question — the score of a list is the number of
its patterns that match somewhere in the question. -/
def distinctHitCount (pats : List RPat) (q : String) : Nat :=
  (pats.filter (fun p => reSearch [p] q)).length

/-- Modelled from the claim's words: `classify` as the claim describes it,
with at-most-once-per-pattern counting. -/
def classifyClaim (query : String) : String :=
  let quantHits := distinctHitCount QUANT_PATS query
  let qualHits := distinctHitCount QUAL_PATS query
  if qualHits < quantHits then "quant"
  else if quantHits < qualHits then "qual"
  else if reSearch TIE_PATS query then "quant"
  else "qual"

/-! ## Dataframe model

A pandas dataframe is modelled as a rectangular table: a column-name list
and one cell list per row, aligned positionally.  Cells are strings,
integers, or missing (`NaN`/`NaT`). -/

inductive Cell where
  | s (v : String)
  | i (n : Int)
  | na
deriving DecidableEq

structure DF where
  cols : List String
  rows : List (List Cell)
deriving DecidableEq

/-- Rectangularity invariant pandas maintains for its frames. -/
def DF.Rect (df : DF) : Prop := ∀ r ∈ df.rows, r.length = df.cols.length

/-- Index of a column name (first occurrence). -/
def idxOf? : List String → String → Option Nat
  | [], _ => none
  | c :: cs, name => if c = name then some 0 else (idxOf? cs name).map (· + 1)

/-- Column lookup, `df[name]`; `none` models the `KeyError` case. -/
def DF.getCol (df : DF) (name : String) : Option (List Cell) :=
  (idxOf? df.cols name).map (fun j => df.rows.map (fun r => r.getD j Cell.na))

/-- Column assignment `df[name] = vals`: overwrite in place, or append a
new column at the right edge when the name is absent (pandas semantics).
Call sites always supply exactly one value per row. -/
def DF.setCol (df : DF) (name : String) (vals : List Cell) : DF :=
  match idxOf? df.cols name with
  | some j => ⟨df.cols, (df.rows.zip vals).map (fun p => p.1.set j p.2)⟩
  | none => ⟨df.cols ++ [name], (df.rows.zip vals).map (fun p => p.1 ++ [p.2])⟩

/-- Count of the rows holding value `v` in column `name`. -/
def DF.countWhere (df : DF) (name : String) (v : Cell) : Nat :=
  ((df.getCol name).getD []).countP (fun x => x == v)

/-- Python exceptions the embedded code can raise. -/
inductive PyErr where
  | keyErr | zeroDiv | indexErr | valueErr | typeErr
deriving DecidableEq

/-! ## Generic sorting (models `sort_values`)

Insertion sort parameterised by a boolean "goes before or at" relation.
Only the permutation property matters to the claims (pandas' default
`sort_values` kind makes no tie-order guarantee anyway). -/

def insertBy {α : Type} (le : α → α → Bool) (x : α) : List α → List α
  | [] => [x]
  | y :: ys => if le x y then x :: y :: ys else y :: insertBy le x ys

def sortBy {α : Type} (le : α → α → Bool) : List α → List α
  | [] => []
  | x :: xs => insertBy le x (sortBy le xs)

/-! ## theme_extractor.py -/

/-- List `_LABEL_RULES` (theme_extractor.py lines 46–61), in source order.
The Python sets only ever feed membership tests, so lists suffice. -/
def LABEL_RULES : List (List String × String) :=
  [ (["app", "mobile", "login", "crash", "password", "screen", "error", "loading",
      "authentication", "fingerprint", "face", "update", "ios", "android"],
     "App & Login Issues"),
    (["charge", "fee", "charged", "overdraft", "statement", "billing", "refund",
      "maintenance", "annual", "late", "penalty", "balance transfer"],
     "Billing & Fee Disputes"),
    (["transaction", "payment", "declined", "transfer", "unauthorized", "fraud",
      "purchase", "debit", "atm", "withdrawal", "deposit", "wire"],
     "Transaction Problems"),
    (["account", "locked", "access", "blocked", "frozen", "verification", "reset",
      "security", "flag", "suspended", "recover"],
     "Account Access Issues"),
    (["service", "representative", "staff", "wait", "hold", "support", "agent",
      "call", "phone", "transferred", "rude", "unhelpful", "callback"],
     "Customer Service Quality"),
    (["loan", "mortgage", "interest", "rate", "application", "approval",
      "personal", "refinance", "payoff", "equity"],
     "Loan & Mortgage Issues"),
    (["card", "chip", "tap", "contactless", "apple", "google", "pay",
      "pin", "credit", "limit"],
     "Card & Payment Method Issues") ]

/-- Python `str.title`: a letter is uppercased after a non-cased character
and lowercased after a cased one. -/
def pyTitleAux : Bool → List Char → List Char
  | _, [] => []
  | prevCased, c :: rest =>
      if c.isAlpha then
        (if prevCased then c.toLower else c.toUpper) :: pyTitleAux true rest
      else c :: pyTitleAux false rest

def pyTitle (s : String) : String := ⟨pyTitleAux false s.data⟩

/-- Function `_auto_label` (theme_extractor.py lines 64–71). -/
def autoLabel (topKeywords : List String) : String :=
  let kwSet := topKeywords.take 8
  match LABEL_RULES.find? (fun rule => rule.1.any (fun w => kwSet.contains w)) with
  | some rule => rule.2
  | none => String.intercalate " & " ((topKeywords.take 2).map pyTitle)

/-- Modelled from the spec's words (§4.3 / claim C8): first rule whose
keyword set intersects the set of the top-8 terms, else the two
highest-weighted terms title-cased and joined with " & ". -/
def autoLabelSpec (topKeywords : List String) : String :=
  match LABEL_RULES.find?
      (fun rule => decide (∃ w, w ∈ topKeywords.take 8 ∧ w ∈ rule.1)) with
  | some rule => rule.2
  | none => String.intercalate " & " ((topKeywords.take 2).map pyTitle)

/-- Policy of theme_extractor.py lines 109–114: fewer documents than
requested themes reduces the cluster count. -/
def effectiveThemeCount (nDocs nThemes : Nat) : Nat :=
  if nDocs < nThemes then max 2 (nDocs / 2) else nThemes

/-- Value a text cell contributes to `df[text_col].fillna("").tolist()`
(text columns hold strings; an integer cell stringified here stands for a
value the downstream vectoriser would reject anyway). -/
def Cell.fillStr : Cell → String
  | .s v => v
  | .i n => toString n
  | .na => ""

structure ThemeRecord where
  theme_id : Nat
  label : String
  count : Nat
  top_keywords : String
  example_texts : String
deriving DecidableEq

/-- Conversion of the up-to-3 example cells to strings:
`" | ".join(...)` raises `TypeError` on a non-string (`NaN`) element. -/
def cellsToStrs : List Cell → Except PyErr (List String)
  | [] => .ok []
  | Cell.s v :: cs =>
      match cellsToStrs cs with
      | .error e => .error e
      | .ok vs => .ok (v :: vs)
  | _ :: _ => .error .typeErr

/-- Loop body of theme_extractor.py lines 134–149 for cluster `i`:
`count` from the `theme_id` mask, up to 3 example texts in original row
order, heuristic label.  `col` is the original text column, `labels` the
cluster assignment (the mask over the mutated frame selects exactly the
rows whose label is `i`). -/
def mkRecord (topKw : Nat → List String) (col : List Cell) (labels : List Nat)
    (i : Nat) : Except PyErr ThemeRecord :=
  let kws := topKw i
  let count := labels.countP (fun l => l == i)
  let exCells := (((col.zip labels).filter (fun p => p.2 == i)).map Prod.fst).take 3
  match cellsToStrs exCells with
  | .error e => .error e
  | .ok exs =>
      .ok ⟨i, autoLabel kws, count,
           String.intercalate ", " kws, String.intercalate " | " exs⟩

/-- Accumulation of the `records` list (the `for i in range(n_themes)` loop). -/
def recLoop (f : Nat → Except PyErr ThemeRecord) : List Nat → Except PyErr (List ThemeRecord)
  | [] => .ok []
  | i :: is =>
      match f i with
      | .error e => .error e
      | .ok r =>
          match recLoop f is with
          | .error e => .error e
          | .ok rs => .ok (r :: rs)

/-- Embedding of `extract_themes` (theme_extractor.py lines 74–163).

The external collaborators are parameters:
* `vectorize` — `TfidfVectorizer(..., min_df=2).fit_transform`; with
  fewer than 2 documents every term falls below `min_df`, the vocabulary
  is empty and it raises `ValueError`;
* `kmLabels texts k` — `KMeans(n_clusters=k, random_state=seed).fit_predict`,
  one cluster id per document, each `< k`; sklearn validates
  `1 ≤ n_clusters ≤ n_samples` before fitting, made explicit below;
* `topKw i` — the `n_top_keywords` highest-weight terms of centroid `i`
  (`order_centroids[i, :n_top_keywords]`), descending-weight order.

The returned pair is (mutated dataframe, themes table); the final
`logger.info` call reads `themes_df.iloc[0]`, hence the `IndexError` on an
empty record list. -/
def extractThemes (vectorize : List String → Except PyErr Unit)
    (kmLabels : List String → Nat → List Nat)
    (topKw : Nat → List String)
    (df : DF) (textCol : String := "text_clean") (nThemes : Nat := 5) :
    Except PyErr (DF × List ThemeRecord) :=
  match df.getCol textCol with
  | none => .error .keyErr
  | some col =>
    let texts := col.map Cell.fillStr
    let n := effectiveThemeCount texts.length nThemes
    match vectorize texts with
    | .error e => .error e
    | .ok _ =>
      if n = 0 ∨ texts.length < n then .error .valueErr
      else
        let labels := kmLabels texts n
        let df' := df.setCol "theme_id" (labels.map (fun l => Cell.i (Int.ofNat l)))
        match recLoop (mkRecord topKw col labels) (List.range n) with
        | .error e => .error e
        | .ok records =>
          match sortBy (fun a b => decide (b.count ≤ a.count)) records with
          | [] => .error .indexErr
          | t :: ts => .ok (df', t :: ts)

/-! ## Shared formatting helpers (quant_handler.py / qual_handler.py) -/

/-- Digit grouping for Python format `{n:,}`; input is the reversed digit
list, which is split in runs of three. -/
def commaGroup : List Char → List Char
  | [] => []
  | [a] => [a]
  | [a, b] => [a, b]
  | [a, b, c] => [a, b, c]
  | a :: b :: c :: d :: rest => a :: b :: c :: ',' :: commaGroup (d :: rest)

/-- Python `f"{n:,}"` for a natural number. -/
def commaFmt (n : Nat) : String :=
  ⟨(commaGroup (toString n).data.reverse).reverse⟩

/-- First-occurrence deduplication (the distinct keys seen by
`value_counts` / `groupby`), with the already-seen values accumulated. -/
def distinctKeepAux (seen : List String) : List String → List String
  | [] => []
  | v :: vs =>
      if v ∈ seen then distinctKeepAux seen vs
      else v :: distinctKeepAux (v :: seen) vs

def distinctKeep (l : List String) : List String := distinctKeepAux [] l

/-- Value a cell contributes to `value_counts` (missing values dropped). -/
def cellStr? : Cell → Option String
  | .s v => some v
  | .i n => some (toString n)
  | .na => none

/-- Model of `series.value_counts()`: distinct non-null values with their
multiplicities, sorted by count descending (tie order is not relied on;
pandas makes no stable-tie guarantee either). -/
def valueCounts (cells : List Cell) : List (String × Nat) :=
  let vals := cells.filterMap cellStr?
  sortBy (fun a b => decide (b.2 ≤ a.2))
    ((distinctKeep vals).map (fun v => (v, vals.count v)))

/-- Lexicographic order on char lists (for `groupby`'s sorted keys). -/
def lexLe : List Char → List Char → Bool
  | [], _ => true
  | _ :: _, [] => false
  | a :: as, b :: bs =>
      if a.val < b.val then true
      else if b.val < a.val then false
      else lexLe as bs

def strLexLe (a b : String) : Bool := lexLe a.data b.data

/-- Model of `series.groupby(col).size()`: every value (including the
literal string "NaT") is a key; keys sorted ascending. -/
def groupbySize (vals : List String) : List (String × Nat) :=
  sortBy (fun a b => strLexLe a.1 b.1)
    ((distinctKeep vals).map (fun v => (v, vals.count v)))

/-- Structured payloads carried in the result dicts. -/
inductive PVal where
  | int (n : Int)
  | str (v : String)
  | dict (l : List (String × PVal))
  | list (l : List PVal)

/-- Result dict of a handler (`answer`/`data`/`examples`/`confidence`/
`llm_mode`, plus the `query_type` the router adds). -/
structure Result where
  answer : String
  data : Option PVal := none
  examples : Option (List String) := none
  confidence : String
  llm_mode : Option String := none
  query_type : Option String := none

/-! ## quant_handler.py -/

/-- Derived month/week period strings of `_prepare` (lines 27–32).
`pd.to_datetime(·, errors="coerce")` is the parameter `parse`; an
unparsable or missing date becomes `NaT`, which `astype(str)` then turns
into the literal string "NaT". -/
structure PDate where
  month : String
  week : String
deriving DecidableEq

/-- Parse result of one `date` cell (`NaN` coerces to `NaT`). -/
def cellParse (parse : String → Option PDate) : Cell → Option PDate
  | .s v => parse v
  | .i n => parse (toString n)
  | .na => none

def cellMonth (parse : String → Option PDate) (c : Cell) : String :=
  match cellParse parse c with
  | some d => d.month
  | none => "NaT"

def cellWeek (parse : String → Option PDate) (c : Cell) : String :=
  match cellParse parse c with
  | some d => d.week
  | none => "NaT"

/-- State of a `QuantHandler`: the copied frame, the themes table, and the
`_month`/`_week` columns `_prepare` adds when a `date` column exists (they
are read only by `_trend_query`). -/
structure QuantState where
  df : DF
  themes : List ThemeRecord
  monthW : Option (List String × List String)

/-- Constructor + `_prepare` (lines 22–32). -/
def mkQuantState (parse : String → Option PDate) (cleaned : DF)
    (themes : List ThemeRecord) : QuantState :=
  ⟨cleaned, themes,
   match cleaned.getCol "date" with
   | none => none
   | some cells => some (cells.map (cellMonth parse), cells.map (cellWeek parse))⟩

/-- Largest-theme extra of `_count_query` (lines 63–69); the percentage
division raises `ZeroDivisionError` on an empty frame.  `fmtPct a b`
models `f"{a/b*100:.1f}"` (floating-point rendering abstracted). -/
def themeExtra (fmtPct : Nat → Nat → String) (st : QuantState) (q : String) :
    Except PyErr (List String) :=
  if strContains q "theme" then
    match st.themes with
    | top :: _ =>
        if st.df.rows.length = 0 then .error .zeroDiv
        else .ok ["The largest theme is **" ++ top.label ++ "** (" ++
                  commaFmt top.count ++ " complaints, " ++
                  fmtPct top.count st.df.rows.length ++ "% of total)."]
    | [] => .ok []
  else .ok []

/-- Top-channel extra of `_count_query` (lines 70–74); `top_ch.index[0]`
raises `IndexError` when the channel column holds no non-null value. -/
def channelExtra (st : QuantState) : Except PyErr (List String) :=
  match st.df.getCol "channel" with
  | none => .ok []
  | some cells =>
      match valueCounts cells with
      | [] => .error .indexErr
      | (k, v) :: _ =>
          .ok ["Top channel: **" ++ k ++ "** (" ++ commaFmt v ++ " complaints)."]

/-- Function `_count_query` (lines 59–84). -/
def countQuery (fmtPct : Nat → Nat → String) (st : QuantState) (q : String) :
    Except PyErr Result :=
  match themeExtra fmtPct st q with
  | .error e => .error e
  | .ok ex1 =>
    match channelExtra st with
    | .error e => .error e
    | .ok ex2 =>
      let extras := ex1 ++ ex2
      let answer := "There are **" ++ commaFmt st.df.rows.length ++
        "** complaints in the dataset."
      let answer :=
        if extras.isEmpty then answer
        else answer ++ "\n\n" ++ String.intercalate "\n" extras
      .ok { answer := answer,
            data := some (.dict [("total_complaints", .int st.df.rows.length)]),
            confidence := "Based on all " ++ commaFmt st.df.rows.length ++ " rows" }

/-- Numbered theme lines of `_top_themes_query` (lines 87–91).  The
comprehension iterates `self.themes.itertuples()` and indexes each
namedtuple row with STRINGS — `row['label']`, `row['count']` — which
raises `TypeError: tuple indices must be integers or slices, not str` as
soon as the first row's f-string is evaluated.  Hence only an empty
themes table completes (yielding no lines); any non-empty table raises
before the rank, the division or anything else is used. -/
def themeLines : List ThemeRecord → Except PyErr (List String)
  | [] => .ok []
  | _ :: _ => .error .typeErr

/-- Function `_top_themes_query` (lines 86–96); `_all_themes_query`
(lines 98–99) delegates to it.  The `.ok` branch is reachable only for
an empty themes table, because of the string-indexing `TypeError` in
`themeLines`. -/
def topThemesQuery (_fmtPct : Nat → Nat → String) (st : QuantState) :
    Except PyErr Result :=
  let total := st.df.rows.length
  match themeLines st.themes with
  | .error e => .error e
  | .ok rows =>
      .ok { answer := "**Top complaint themes (by volume):**\n" ++ String.intercalate "\n" rows,
            data := some (.list (st.themes.map (fun t =>
              .dict [("theme_id", .int t.theme_id), ("label", .str t.label),
                     ("count", .int t.count)]))),
            confidence := "Based on " ++ commaFmt total ++ " complaints across " ++
                          toString st.themes.length ++ " themes" }

/-- Per-value breakdown lines shared by the channel/severity/product
queries; each line divides by `len(self.df)`. -/
def breakdownLines (fmtPct : Nat → Nat → String) (total : Nat) :
    List (String × Nat) → Except PyErr (List String)
  | [] => .ok []
  | (k, v) :: rest =>
      if total = 0 then .error .zeroDiv
      else
        match breakdownLines fmtPct total rest with
        | .error e => .error e
        | .ok ls =>
            .ok (("  - **" ++ k ++ "**: " ++ commaFmt v ++ " (" ++
                  fmtPct v total ++ "%)") :: ls)

/-- Function `_channel_query` (lines 101–117). -/
def channelQuery (fmtPct : Nat → Nat → String) (st : QuantState) :
    Except PyErr Result :=
  match st.df.getCol "channel" with
  | none =>
      .ok { answer := "No `channel` column found in the dataset.",
            data := some (.dict []), confidence := "N/A" }
  | some cells =>
      let ch := valueCounts cells
      match breakdownLines fmtPct st.df.rows.length ch with
      | .error e => .error e
      | .ok rows =>
          .ok { answer := "**Complaints by channel:**\n" ++ String.intercalate "\n" rows,
                data := some (.dict (ch.map (fun p => (p.1, PVal.int p.2)))),
                confidence := "Based on " ++ commaFmt st.df.rows.length ++ " complaints" }

/-- Function `_trend_query` (lines 119–145). -/
def trendQuery (st : QuantState) (q : String) : Except PyErr Result :=
  match st.monthW with
  | none =>
      .ok { answer := "No `date` column found — trend analysis unavailable.",
            data := some (.dict []), confidence := "N/A" }
  | some (months, weeks) =>
      let periodVals := if strContains q "week" then weeks else months
      let trend := groupbySize periodVals
      let rows := trend.map (fun p => "  - **" ++ p.1 ++ "**: " ++ commaFmt p.2)
      let label := if strContains q "week" then "weekly" else "monthly"
      .ok { answer := "**Complaint trend (" ++ label ++ "):**\n" ++
                      String.intercalate "\n" rows,
            data := some (.list (trend.map (fun p =>
              .dict [("period", .str p.1), ("count", .int p.2)]))),
            confidence := "Based on " ++ commaFmt st.df.rows.length ++
                          " complaints across " ++ toString trend.length ++ " " ++
                          label ++ " periods" }

/-- Function `_severity_query` (lines 147–163). -/
def severityQuery (fmtPct : Nat → Nat → String) (st : QuantState) :
    Except PyErr Result :=
  match st.df.getCol "severity" with
  | none =>
      .ok { answer := "No `severity` column found in the dataset.",
            data := some (.dict []), confidence := "N/A" }
  | some cells =>
      let sv := valueCounts cells
      match breakdownLines fmtPct st.df.rows.length sv with
      | .error e => .error e
      | .ok rows =>
          .ok { answer := "**Complaints by severity:**\n" ++ String.intercalate "\n" rows,
                data := some (.dict (sv.map (fun p => (p.1, PVal.int p.2)))),
                confidence := "Based on " ++ commaFmt st.df.rows.length ++ " complaints" }

/-- First present column among the product candidates (lines 166–170). -/
def firstPresent (df : DF) : List String → Option (String × List Cell)
  | [] => none
  | c :: cs =>
      match df.getCol c with
      | some cells => some (c, cells)
      | none => firstPresent df cs

/-- Function `_product_query` (lines 165–186). -/
def productQuery (fmtPct : Nat → Nat → String) (st : QuantState) :
    Except PyErr Result :=
  match firstPresent st.df ["product_category", "product", "category"] with
  | none =>
      .ok { answer := "No product/category column found in the dataset.",
            data := some (.dict []), confidence := "N/A" }
  | some (col, cells) =>
      let pc := valueCounts cells
      match breakdownLines fmtPct st.df.rows.length pc with
      | .error e => .error e
      | .ok rows =>
          .ok { answer := "**Complaints by " ++ col.replace "_" " " ++ ":**\n" ++
                          String.intercalate "\n" rows,
                data := some (.dict (pc.map (fun p => (p.1, PVal.int p.2)))),
                confidence := "Based on " ++ commaFmt st.df.rows.length ++ " complaints" }

/-- Top-channel line of `_general_stats` (lines 197–199), with the same
`index[0]` hazard as the count query's extra. -/
def gsChannelLine (st : QuantState) : Except PyErr (List String) :=
  match st.df.getCol "channel" with
  | none => .ok []
  | some cells =>
      match valueCounts cells with
      | [] => .error .indexErr
      | (k, v) :: _ => .ok ["Top channel: **" ++ k ++ "** (" ++ commaFmt v ++ ")."]

/-- High-severity line of `_general_stats` (lines 200–204); the
percentage divides by the row count. -/
def gsSeverityLine (fmtPct : Nat → Nat → String) (st : QuantState) :
    Except PyErr (List String) :=
  match st.df.getCol "severity" with
  | none => .ok []
  | some cells =>
      let high := cells.countP (fun c => c == Cell.s "high")
      if st.df.rows.length = 0 then .error .zeroDiv
      else .ok ["High-severity complaints: **" ++ commaFmt high ++ "** (" ++
                fmtPct high st.df.rows.length ++ "%)."]

/-- Function `_general_stats` (lines 188–210). -/
def generalStats (fmtPct : Nat → Nat → String) (st : QuantState) :
    Except PyErr Result :=
  let line1 := "**Dataset summary:** " ++ commaFmt st.df.rows.length ++
    " complaints loaded."
  let themeLns : List String :=
    match st.themes with
    | top :: _ =>
        ["Top theme: **" ++ top.label ++ "** (" ++ commaFmt top.count ++ " complaints)."]
    | [] => []
  match gsChannelLine st with
  | .error e => .error e
  | .ok ex1 =>
    match gsSeverityLine fmtPct st with
    | .error e => .error e
    | .ok ex2 =>
        .ok { answer := String.intercalate "\n" (line1 :: themeLns ++ ex1 ++ ex2),
              data := some (.dict [("total", .int st.df.rows.length)]),
              confidence := "Based on " ++ commaFmt st.df.rows.length ++ " rows" }

/-- Dispatch patterns of `QuantHandler.handle` (lines 40–52), in source
order; alternatives without a trailing word boundary use `pl`. -/
def CNT_PATS : List RPat := [pw "how many", pw "total", pw "count", pw "number of"]
def TOPTHEME_PATS : List RPat :=
  [pl "top theme", pl "biggest theme", pl "most common theme", pw "largest theme"]
def THEME_PATS : List RPat := [pl "theme", pl "cluster", pl "topic", pw "segment"]
def CHANNEL_PATS : List RPat :=
  [pl "channel", pl "email", pl "phone", pl "chat", pw "social"]
def TREND_PATS : List RPat :=
  [pl "trend", pl "month", pl "week", pl "over time", pw "time series"]
def SEV_PATS : List RPat :=
  [pl "severity", pl "high", pl "critical", pl "urgent", pw "low"]
def PROD_PATS : List RPat :=
  [pl "product", pl "category", pl "mortgage", pl "loan", pw "credit card"]

/-- Method `QuantHandler.handle` (lines 36–55): lowercase the query, then
dispatch on the first matching sub-pattern, with `_general_stats` as the
fallback. -/
def quantHandle (fmtPct : Nat → Nat → String) (st : QuantState) (query : String) :
    Except PyErr Result :=
  let q := lowerStr query
  if reSearch CNT_PATS q then countQuery fmtPct st q
  else if reSearch TOPTHEME_PATS q then topThemesQuery fmtPct st
  else if reSearch THEME_PATS q then topThemesQuery fmtPct st
  else if reSearch CHANNEL_PATS q then channelQuery fmtPct st
  else if reSearch TREND_PATS q then trendQuery st q
  else if reSearch SEV_PATS q then severityQuery fmtPct st
  else if reSearch PROD_PATS q then productQuery fmtPct st
  else generalStats fmtPct st

/-! ## llm_client.py -/

/-- Python `str.strip()` (whitespace both ends). -/
def pyStrip (s : String) : String :=
  ⟨((s.data.dropWhile isPySpace).reverse.dropWhile isPySpace).reverse⟩

/-- Python `str.lstrip("-")`. -/
def stripLeadDash (s : String) : String := ⟨s.data.dropWhile (· = '-')⟩

/-- Python `str.strip('"')`. -/
def stripQuotes (s : String) : String :=
  ⟨((s.data.dropWhile (· = '"')).reverse.dropWhile (· = '"')).reverse⟩

/-- Offline provenance tag of the NO-KEY responses. -/
def NOKEY_TAG : String :=
  "_(NO-KEY MODE — set OPENAI_API_KEY or ANTHROPIC_API_KEY for AI-generated analysis)_"

/-- Per-line processing of `_no_key` (llm_client.py line 106):
`line.strip().lstrip("-").strip().strip('"').strip()`. -/
def noKeyLine (line : String) : String :=
  pyStrip (stripQuotes (pyStrip (stripLeadDash (pyStrip line))))

/-- Candidate filter of `_no_key` (line 108): the stripped line starts
with a dash or a double quote. -/
def startsDashOrQuote (line : String) : Bool :=
  match (pyStrip line).data with
  | [] => false
  | c :: _ => c = '-' || c = '"'

/-- Split into lines at the newline character (`str.splitlines` for texts
whose only line break is `\n`, which is all the prompts contain). -/
def splitLinesAux (acc : List Char) : List Char → List String
  | [] => [⟨acc.reverse⟩]
  | c :: rest =>
      if c = '\n' then ⟨acc.reverse⟩ :: splitLinesAux [] rest
      else splitLinesAux (c :: acc) rest

def splitLines (s : String) : List String := splitLinesAux [] s.data

/-- Example extraction of `_no_key` (lines 105–110): candidate lines,
processed, kept when longer than 15 characters, first 4. -/
def noKeyExamples (prompt : String) : List String :=
  ((((splitLines prompt).filter startsDashOrQuote).map noKeyLine).filter
    (fun e => 15 < e.length)).take 4

def NOKEY_HEADER : String :=
  "Based on the retrieved complaint examples, customers are experiencing the following issues:\n"

def NOKEY_RECO : String :=
  "\n\nRecommendation: Prioritise root-cause investigation for the most-frequent pain point and set up a dedicated fast-resolution queue with a 24-hour SLA target.\n\n"

/-- One bullet line (line 113), the example truncated to 120 characters. -/
def noKeyBullet (e : String) : String := "  • " ++ e.take 120

/-- Bulleted response of `_no_key` (lines 112–123). -/
def noKeyResponse (es : List String) : String :=
  NOKEY_HEADER ++ String.intercalate "\n" (es.map noKeyBullet) ++ NOKEY_RECO ++ NOKEY_TAG

/-- Fixed response of `_no_key` when no example lines are found
(lines 125–132). -/
def NOKEY_EMPTY : String :=
  "The selected complaints share themes around service quality, technical reliability, and billing transparency. Recommend monitoring complaint volume weekly and escalating any theme that grows more than 20% week-over-week.\n\n" ++
  NOKEY_TAG

/-- Function `_no_key` (llm_client.py lines 98–132). -/
def noKey (prompt : String) : String :=
  match noKeyExamples prompt with
  | [] => NOKEY_EMPTY
  | es => noKeyResponse es

/-- Environment of `llm_client`: the two keys and the two provider calls.
The provider bodies are wrapped in `try/except` returning an inline error
string, so they are total `(text, mode)` functions. -/
structure LLMEnv where
  anthropicKey : String
  openaiKey : String
  anthropicCall : String → String × String
  openaiCall : String → String × String

/-- Function `complete` (llm_client.py lines 26–43): Anthropic, then
OpenAI, then the deterministic NO-KEY fallback. -/
def llmComplete (env : LLMEnv) (prompt : String) : String × String :=
  if env.anthropicKey ≠ "" then env.anthropicCall prompt
  else if env.openaiKey ≠ "" then env.openaiCall prompt
  else (noKey prompt, "no-key")

/-! ## qual_handler.py -/

/-- Stop-set of `QualHandler._retrieve` (lines 63–67). -/
def QUAL_STOP : List String :=
  ["what", "show", "give", "tell", "about", "with", "from",
   "that", "have", "more", "some", "many", "which", "this",
   "they", "their", "customers", "complaints", "issues"]

/-- Maximal word-character runs of a string (`re.split(r"\W+", ·)`; the
empty fragments Python also yields are dropped by the length filter that
always follows). -/
def splitNonWordAux (acc : List Char) : List Char → List String
  | [] => if acc.isEmpty then [] else [⟨acc.reverse⟩]
  | c :: rest =>
      if isWordChar c then splitNonWordAux (c :: acc) rest
      else if acc.isEmpty then splitNonWordAux [] rest
      else ⟨acc.reverse⟩ :: splitNonWordAux [] rest

/-- Keyword extraction (lines 61–68): word tokens of the lowered query,
longer than 3 characters, not in the stop-set. -/
def qualKeywords (qLower : String) : List String :=
  (splitNonWordAux [] qLower.data).filter
    (fun w => 3 < w.length && !(QUAL_STOP.contains w))

/-- Whitespace-run split (Python `str.split()` with no argument). -/
def splitWsAux (acc : List Char) : List Char → List String
  | [] => if acc.isEmpty then [] else [⟨acc.reverse⟩]
  | c :: rest =>
      if isPySpace c then
        if acc.isEmpty then splitWsAux [] rest
        else ⟨acc.reverse⟩ :: splitWsAux [] rest
      else splitWsAux (c :: acc) rest

def splitWs (s : String) : List String := splitWsAux [] s.data

/-- State of a `QualHandler` (lines 23–29): the copied frame and themes
table. -/
structure QualState where
  df : DF
  themes : List ThemeRecord

/-- Display text column choice at construction (lines 27–29): original
text preferred over the normalised one. -/
def qualTextCol (df : DF) : String :=
  if (idxOf? df.cols "complaint_text").isSome then "complaint_text" else "text_clean"

/-- Theme narrowing (lines 53–58): the first theme whose lowered label
words intersect the lowered query words restricts the pool to its rows;
reading the `theme_id` column raises `KeyError` when it is absent. -/
def qualPool (df : DF) (themes : List ThemeRecord) (qLower : String) :
    Except PyErr DF :=
  match themes.find? (fun t =>
      (splitWs (lowerStr t.label)).any (fun w => (splitWs qLower).contains w)) with
  | none => .ok df
  | some t =>
      match idxOf? df.cols "theme_id" with
      | none => .error .keyErr
      | some j =>
          .ok ⟨df.cols,
               df.rows.filter (fun r => r.getD j Cell.na == Cell.i (Int.ofNat t.theme_id))⟩

/-- Keyword mask of one text cell (`str.contains(pattern, case=False,
na=False)`): a missing or non-string value never matches. -/
def cellKwMatch (keywords : List String) : Cell → Bool
  | .s v => keywords.any (fun k => strContainsCI v k)
  | _ => false

/-- Non-null display values (`dropna().tolist()`); an integer cell is
stringified (text columns hold strings in practice). -/
def cellText? : Cell → Option String
  | .s v => some v
  | .i n => some (toString n)
  | .na => none

/-- Name of the column the keyword mask is computed over (line 72):
`pool["text_clean"] if "text_clean" in pool.columns else pool[self._text_col]`. -/
def textPoolName (stdf : DF) (pool : DF) : String :=
  if (idxOf? pool.cols "text_clean").isSome then "text_clean" else qualTextCol stdf

/-- Keyword-mask row filter (lines 71–74): keep the rows whose text cell
(at column index `j`) contains some keyword. -/
def kwFiltered (keywords : List String) (pool : DF) (j : Nat) : DF :=
  ⟨pool.cols, pool.rows.filter (fun r => cellKwMatch keywords (r.getD j Cell.na))⟩

/-- Method `QualHandler._retrieve` (lines 47–87): theme narrowing, keyword
filter over the pool's `text_clean` (falling back to the display column
when absent), full-pool fallback on no keywords or no hits, then up to 8
non-null display texts and the retrieval metadata string. -/
def retrieve (st : QualState) (query : String) : Except PyErr (List String × String) :=
  let qLower := lowerStr query
  match qualPool st.df st.themes qLower with
  | .error e => .error e
  | .ok pool =>
    let keywords := qualKeywords qLower
    match
      (if keywords.isEmpty then .ok pool
       else
         match idxOf? pool.cols (textPoolName st.df pool) with
         | none => .error .keyErr
         | some j => .ok (kwFiltered keywords pool j)
       : Except PyErr DF) with
    | .error e => .error e
    | .ok matched0 =>
      let matched := if matched0.rows.isEmpty then pool else matched0
      match matched.getCol (qualTextCol st.df) with
      | none => .error .keyErr
      | some cells =>
          let examples := (cells.filterMap cellText?).take 8
          let info := commaFmt matched.rows.length ++
            " matching complaints retrieved (showing top " ++
            toString (min examples.length 8) ++ ")"
          .ok (examples, info)

/-- Modelled from the claim's words (C6): the retained row set — the
keyword-matching rows of the pool, or the entire pool when there are no
keywords or no matching rows. -/
def qualMatched (query : String) (pool : DF) (j : Nat) : DF :=
  let keywords := qualKeywords (lowerStr query)
  let matched0 := if keywords.isEmpty then pool else kwFiltered keywords pool j
  if matched0.rows.isEmpty then pool else matched0

/-- Fixed retrieval-miss answer of `_summarise` (line 94). -/
def NO_RELEVANT : String := "No relevant complaints found for this query."

/-- Method `QualHandler._summarise` (lines 91–107): fixed answer and no
completion call when no examples exist; otherwise the structured prompt is
built and sent to `complete`. -/
def summarise (env : LLMEnv) (query : String) (examples : List String) :
    String × String :=
  if examples.isEmpty then (NO_RELEVANT, "no-key")
  else
    let bullets := String.intercalate "\n"
      (examples.map (fun e => "- \"" ++ e.take 200 ++ "\""))
    let prompt :=
      "A customer experience analyst is reviewing customer complaints.\n\nQuestion: " ++
      query ++ "\n\nRelevant complaint examples (" ++ toString examples.length ++
      " retrieved):\n" ++ bullets ++
      "\n\nProvide a concise analysis (3–5 sentences) that:\n1. Identifies the core pain points\n2. Notes any patterns (urgency, frequency, channel, severity)\n3. Suggests one concrete, actionable recommendation\n"
    llmComplete env prompt

/-- Method `QualHandler.handle` (lines 33–43). -/
def qualHandle (env : LLMEnv) (st : QualState) (query : String) :
    Except PyErr Result :=
  match retrieve st query with
  | .error e => .error e
  | .ok (examples, info) =>
      let sm := summarise env query examples
      .ok { answer := sm.1, examples := some (examples.take 3),
            confidence := info, llm_mode := some sm.2 }

/-! ## router.py — dispatch -/

/-- Method `Router.answer` (router.py lines 70–79) over the states the
constructor builds (both handlers copy the cleaned frame; `_prepare` runs
in the quantitative one). -/
def routerAnswer (fmtPct : Nat → Nat → String) (env : LLMEnv)
    (parse : String → Option PDate) (cleaned : DF) (themes : List ThemeRecord)
    (query : String) : Except PyErr Result :=
  if classify query = "quant" then
    match quantHandle fmtPct (mkQuantState parse cleaned themes) query with
    | .error e => .error e
    | .ok r => .ok { r with query_type := some "quantitative" }
  else
    match qualHandle env ⟨cleaned, themes⟩ query with
    | .error e => .error e
    | .ok r => .ok { r with query_type := some "qualitative" }

/-! ## Concrete fixtures used by witnesses and counterexamples -/

/-- Placeholder for the floating-point percentage renderer (no executed
path below ever consults it on the inputs of interest). -/
def fmtPctWit : Nat → Nat → String := fun _ _ => "0.0"

/-- Keyless environment (NO-KEY MODE). -/
def envWit : LLMEnv := ⟨"", "", fun _ => ("", ""), fun _ => ("", "")⟩

/-- Date parser recognising a single ISO date. -/
def parseWit : String → Option PDate := fun s =>
  if s = "2024-01-15" then some ⟨"2024-01", "2024-01-15/2024-01-21"⟩ else none

/-- Vectoriser behaviour: `min_df=2` makes the vocabulary empty on fewer
than 2 documents, raising `ValueError`. -/
def vectWit : List String → Except PyErr Unit := fun ts =>
  if ts.length < 2 then .error .valueErr else .ok ()

/-- Degenerate but sklearn-shaped clusterer: everything in cluster 0. -/
def kmWit : List String → Nat → List Nat := fun ts _ => ts.map (fun _ => 0)

def kwWit : Nat → List String := fun _ => ["app"]

def dfSolo : DF := ⟨["text_clean"], [[Cell.s "solo"]]⟩

def dfPair : DF := ⟨["text_clean"], [[Cell.s "alpha"], [Cell.s "beta"]]⟩

def dfNoChannel : DF := ⟨["text_clean"], [[Cell.s "a"], [Cell.s "b"], [Cell.s "c"]]⟩

def dfDate : DF :=
  ⟨["text_clean", "date"],
   [[Cell.s "a", Cell.s "2024-01-15"], [Cell.s "b", Cell.s "garbage"]]⟩

def dfNaTxt : DF := ⟨["text_clean"], [[Cell.na]]⟩

def dfPairQ : DF :=
  ⟨["text_clean"], [[Cell.s "password reset problem"], [Cell.s "fee charged twice"]]⟩

def dfEmptyRows : DF := ⟨["text_clean"], []⟩

def dfQ9 : DF :=
  ⟨["text_clean", "channel", "theme_id"], [[Cell.s "t", Cell.s "email", Cell.i 0]]⟩

def themesOne : List ThemeRecord := [⟨0, "X", 5, "", ""⟩]

/-- Result frame of running the extraction fixtures on `dfPair`. -/
def dfPairOut : DF :=
  ⟨["text_clean", "theme_id"],
   [[Cell.s "alpha", Cell.i 0], [Cell.s "beta", Cell.i 0]]⟩

/-- Result themes table of running the extraction fixtures on `dfPair`. -/
def themesPairOut : List ThemeRecord :=
  [⟨0, "App & Login Issues", 2, "app", "alpha | beta"⟩,
   ⟨1, "App & Login Issues", 0, "app", ""⟩]

def promptWit : String :=
  "Question: x\n\nRelevant complaint examples (3 retrieved):\n- \"the mobile app keeps crashing on login\"\n- \"unexpected maintenance fees on my statement\"\n- \"waited two hours to reach a representative\"\n\nProvide a concise analysis"

/-! ## Helper lemmas -/

theorem insertBy_perm {α : Type} (le : α → α → Bool) (x : α) (l : List α) :
    (insertBy le x l).Perm (x :: l) := by
  induction l with
  | nil => exact List.Perm.refl _
  | cons y ys ih =>
      simp only [insertBy]
      split
      · exact List.Perm.refl _
      · exact (ih.cons y).trans (List.Perm.swap x y ys)

theorem sortBy_perm {α : Type} (le : α → α → Bool) (l : List α) :
    (sortBy le l).Perm l := by
  induction l with
  | nil => exact List.Perm.refl _
  | cons x xs ih => exact (insertBy_perm le x (sortBy le xs)).trans (ih.cons x)

theorem find?_congr {α : Type} (p q : α → Bool) (l : List α)
    (h : ∀ x ∈ l, p x = q x) : l.find? p = l.find? q := by
  induction l with
  | nil => rfl
  | cons a l ih =>
      have ha := h a (by simp)
      simp only [List.find?_cons, ha]
      cases q a
      · exact ih (fun x hx => h x (by simp [hx]))
      · rfl

theorem containsAux_iff (needle hay : List Char) :
    containsAux needle hay = true ↔ needle <:+: hay := by
  induction hay with
  | nil =>
      simp only [containsAux, List.isEmpty_iff]
      constructor
      · rintro rfl; exact List.nil_infix
      · intro h
        rcases h with ⟨s, t, hst⟩
        rcases List.append_eq_nil.mp hst with ⟨h1, h2⟩
        exact (List.append_eq_nil.mp h1).2
  | cons c rest ih =>
      simp only [containsAux, Bool.or_eq_true, List.isPrefixOf_iff_prefix, ih]
      constructor
      · rintro (h | h)
        · exact h.isInfix
        · exact List.infix_cons h
      · intro h
        rcases List.infix_cons_iff.mp h with h | h
        · exact Or.inl h
        · exact Or.inr h

theorem strContains_iff (hay needle : String) :
    strContains hay needle = true ↔ needle.data <:+: hay.data :=
  containsAux_iff needle.data hay.data

theorem distinctKeepAux_not_seen (l seen : List String) :
    ∀ w ∈ distinctKeepAux seen l, w ∉ seen := by
  induction l generalizing seen with
  | nil => intro w hw; simp [distinctKeepAux] at hw
  | cons v vs ih =>
      intro w hw
      by_cases hv : v ∈ seen
      · rw [distinctKeepAux, if_pos hv] at hw
        exact ih seen w hw
      · rw [distinctKeepAux, if_neg hv] at hw
        rcases List.mem_cons.mp hw with rfl | hw
        · exact hv
        · have := ih (v :: seen) w hw
          exact fun hmem => this (List.mem_cons_of_mem v hmem)

theorem countP_notmem_cons (vs : List String) (v : String) (seen : List String)
    (hv : v ∉ seen) :
    vs.countP (fun x => decide (x ∉ seen))
      = vs.count v + vs.countP (fun x => decide (x ∉ v :: seen)) := by
  induction vs with
  | nil => simp
  | cons a l ih =>
      rw [List.countP_cons, List.countP_cons, List.count_cons, ih]
      by_cases ha1 : a = v
      · subst ha1
        simp [hv]
        omega
      · by_cases ha2 : a ∈ seen
        · have : a ∈ v :: seen := List.mem_cons_of_mem v ha2
          simp [ha2, this, beq_iff_eq, ha1]
        · have : a ∉ v :: seen := by
            intro hmem
            rcases List.mem_cons.mp hmem with h | h
            · exact ha1 h
            · exact ha2 h
          simp [ha2, this, beq_iff_eq, ha1]
          omega

theorem distinctKeepAux_count_sum (l : List String) (seen : List String) :
    ((distinctKeepAux seen l).map (fun v => l.count v)).sum
      = l.countP (fun x => decide (x ∉ seen)) := by
  induction l generalizing seen with
  | nil => simp [distinctKeepAux]
  | cons v vs ih =>
      by_cases hv : v ∈ seen
      · rw [distinctKeepAux, if_pos hv]
        have hcongr : (distinctKeepAux seen vs).map (fun w => (v :: vs).count w)
            = (distinctKeepAux seen vs).map (fun w => vs.count w) := by
          apply List.map_congr_left
          intro w hw
          have hwn : w ∉ seen := distinctKeepAux_not_seen vs seen w hw
          have hne : v ≠ w := fun h => hwn (h ▸ hv)
          rw [List.count_cons]
          simp [beq_iff_eq, hne]
        rw [hcongr, ih seen, List.countP_cons]
        simp [hv]
      · rw [distinctKeepAux, if_neg hv]
        simp only [List.map_cons, List.sum_cons]
        have hcongr : (distinctKeepAux (v :: seen) vs).map (fun w => (v :: vs).count w)
            = (distinctKeepAux (v :: seen) vs).map (fun w => vs.count w) := by
          apply List.map_congr_left
          intro w hw
          have hwn : w ∉ v :: seen := distinctKeepAux_not_seen vs (v :: seen) w hw
          have hne : v ≠ w := fun h => hwn (h ▸ List.mem_cons_self v seen)
          rw [List.count_cons]
          simp [beq_iff_eq, hne]
        rw [hcongr, ih (v :: seen), List.countP_cons, List.count_cons]
        rw [countP_notmem_cons vs v seen hv]
        simp [hv]
        omega

theorem distinctKeep_count_sum (l : List String) :
    ((distinctKeep l).map (fun v => l.count v)).sum = l.length := by
  unfold distinctKeep
  rw [distinctKeepAux_count_sum l []]
  have : l.countP (fun x => decide (x ∉ ([] : List String))) = l.countP (fun _ => true) := by
    apply List.countP_congr
    intro x _
    simp
  rw [this, List.countP_true]

theorem groupbySize_snd_sum (vals : List String) :
    ((groupbySize vals).map Prod.snd).sum = vals.length := by
  unfold groupbySize
  have hperm := (sortBy_perm (fun a b => strLexLe a.1 b.1)
    ((distinctKeep vals).map (fun v => (v, vals.count v)))).map Prod.snd
  rw [hperm.sum_eq, List.map_map]
  exact distinctKeep_count_sum vals

theorem indicator_range_sum (n a : Nat) :
    ((List.range n).map (fun i => if a = i then 1 else 0)).sum
      = if a < n then 1 else 0 := by
  induction n with
  | zero => simp
  | succ n ih =>
      rw [List.range_succ, List.map_append, List.sum_append, ih]
      simp only [List.map_cons, List.map_nil, List.sum_cons, List.sum_nil]
      by_cases h1 : a < n
      · have : a ≠ n := Nat.ne_of_lt h1
        simp [h1, this, Nat.lt_succ_of_lt h1]
      · by_cases h2 : a = n
        · simp [h1, h2, Nat.lt_succ_self]
        · have : ¬ a < n + 1 := by omega
          simp [h1, h2, this]

theorem sum_map_add {α : Type} (f g : α → Nat) (l : List α) :
    (l.map (fun x => f x + g x)).sum = (l.map f).sum + (l.map g).sum := by
  induction l with
  | nil => simp
  | cons a l ih => simp [ih]; omega

theorem sum_range_countP (n : Nat) (L : List Nat) (h : ∀ l ∈ L, l < n) :
    ((List.range n).map (fun i => L.countP (fun l => l == i))).sum = L.length := by
  induction L with
  | nil => simp
  | cons a L ih =>
      have hstep : ∀ i : Nat,
          (a :: L).countP (fun l => l == i)
            = L.countP (fun l => l == i) + (if a = i then 1 else 0) := by
        intro i
        rw [List.countP_cons]
        simp [beq_iff_eq]
      have hmap : (List.range n).map (fun i => (a :: L).countP (fun l => l == i))
          = (List.range n).map (fun i =>
              L.countP (fun l => l == i) + (if a = i then 1 else 0)) :=
        List.map_congr_left (fun i _ => hstep i)
      rw [hmap, sum_map_add, ih (fun l hl => h l (List.mem_cons_of_mem a hl)),
          indicator_range_sum]
      have ha : a < n := h a (List.mem_cons_self a L)
      simp [ha]

theorem idxOf?_of_not_mem (l : List String) (name : String) (h : name ∉ l) :
    idxOf? l name = none := by
  induction l with
  | nil => rfl
  | cons c cs ih =>
      have hc : c ≠ name := fun hc => h (hc ▸ List.mem_cons_self c cs)
      simp only [idxOf?, hc, if_false]
      rw [ih (fun hm => h (List.mem_cons_of_mem c hm))]
      rfl

theorem idxOf?_lt_length (l : List String) (name : String) (j : Nat)
    (h : idxOf? l name = some j) : j < l.length := by
  induction l generalizing j with
  | nil => simp [idxOf?] at h
  | cons c cs ih =>
      simp only [idxOf?] at h
      by_cases hc : c = name
      · rw [if_pos hc] at h
        cases h
        simp
      · simp only [hc, if_false, Option.map_eq_some'] at h
        rcases h with ⟨j', hj', rfl⟩
        have := ih j' hj'
        simp only [List.length_cons]
        omega

theorem idxOf?_append_of_some (l l' : List String) (name : String) (j : Nat)
    (h : idxOf? l name = some j) : idxOf? (l ++ l') name = some j := by
  induction l generalizing j with
  | nil => simp [idxOf?] at h
  | cons c cs ih =>
      simp only [idxOf?] at h ⊢
      by_cases hc : c = name
      · simpa [hc] using h
      · simp only [hc, if_false, Option.map_eq_some'] at h ⊢
        rcases h with ⟨j', hj', rfl⟩
        exact ⟨j', ih j' hj', rfl⟩

theorem idxOf?_append_self (l : List String) (name : String)
    (h : idxOf? l name = none) : idxOf? (l ++ [name]) name = some l.length := by
  induction l with
  | nil => simp [idxOf?]
  | cons c cs ih =>
      simp only [idxOf?] at h ⊢
      by_cases hc : c = name
      · simp [hc] at h
      · simp only [hc, if_false, Option.map_eq_none'] at h
        simp only [hc, if_false, List.length_cons]
        rw [show (cs.append [name]) = cs ++ [name] from rfl, ih h]
        rfl

/-- Column write-back: the assigned column reads back exactly the assigned
values (both the overwrite and the append case). -/
theorem setCol_getCol (df : DF) (name : String) (vals : List Cell)
    (hwf : df.Rect) (hlen : vals.length = df.rows.length) :
    (df.setCol name vals).getCol name = some vals := by
  unfold DF.setCol DF.getCol
  cases hidx : idxOf? df.cols name with
  | some j =>
      simp only [hidx, Option.map_some']
      congr 1
      have hj : j < df.cols.length := idxOf?_lt_length _ _ _ hidx
      have hmap : ((df.rows.zip vals).map (fun p => p.1.set j p.2)).map
            (fun r => r.getD j Cell.na)
          = (df.rows.zip vals).map (fun p => (p.1.set j p.2).getD j Cell.na) := by
        rw [List.map_map]; rfl
      rw [hmap]
      have hcongr : (df.rows.zip vals).map (fun p => (p.1.set j p.2).getD j Cell.na)
          = (df.rows.zip vals).map Prod.snd := by
        apply List.map_congr_left
        rintro ⟨r, v⟩ hp
        have hr : r ∈ df.rows := (List.of_mem_zip hp).1
        have hrl : j < r.length := by rw [hwf r hr]; exact hj
        simp only [List.getD_eq_getElem?_getD, List.getElem?_set_self hrl,
          Option.getD_some]
      rw [hcongr, List.map_snd_zip _ _ (le_of_eq hlen)]
  | none =>
      simp only [hidx]
      rw [idxOf?_append_self df.cols name hidx]
      simp only [Option.map_some']
      congr 1
      have hmap : ((df.rows.zip vals).map (fun p => p.1 ++ [p.2])).map
            (fun r => r.getD df.cols.length Cell.na)
          = (df.rows.zip vals).map (fun p => (p.1 ++ [p.2]).getD df.cols.length Cell.na) := by
        rw [List.map_map]; rfl
      rw [hmap]
      have hcongr : (df.rows.zip vals).map
            (fun p => (p.1 ++ [p.2]).getD df.cols.length Cell.na)
          = (df.rows.zip vals).map Prod.snd := by
        apply List.map_congr_left
        rintro ⟨r, v⟩ hp
        have hr : r ∈ df.rows := (List.of_mem_zip hp).1
        have hrl : r.length = df.cols.length := hwf r hr
        simp only [List.getD_eq_getElem?_getD, ← hrl, List.getElem?_concat_length,
          Option.getD_some]
      rw [hcongr, List.map_snd_zip _ _ (le_of_eq hlen)]

theorem recLoop_ok_mem (f : Nat → Except PyErr ThemeRecord) (l : List Nat)
    (out : List ThemeRecord) (hok : recLoop f l = .ok out) :
    ∀ r ∈ out, ∃ i ∈ l, f i = .ok r := by
  induction l generalizing out with
  | nil =>
      simp only [recLoop] at hok
      cases hok
      intro r hr; simp at hr
  | cons i is ih =>
      simp only [recLoop] at hok
      cases hfi : f i with
      | error e => rw [hfi] at hok; cases hok
      | ok r0 =>
          rw [hfi] at hok
          cases hrest : recLoop f is with
          | error e => rw [hrest] at hok; cases hok
          | ok rs =>
              rw [hrest] at hok
              cases hok
              intro r hr
              rcases List.mem_cons.mp hr with rfl | hr
              · exact ⟨i, List.mem_cons_self i is, hfi⟩
              · rcases ih rs hrest r hr with ⟨i', hi', hfi'⟩
                exact ⟨i', List.mem_cons_of_mem i hi', hfi'⟩

theorem mkRecord_ok (topKw : Nat → List String) (col : List Cell)
    (labels : List Nat) (i : Nat) (r : ThemeRecord)
    (h : mkRecord topKw col labels i = .ok r) :
    r.theme_id = i ∧ r.count = labels.countP (fun l => l == i) := by
  simp only [mkRecord] at h
  cases hc : cellsToStrs ((((col.zip labels).filter (fun p => p.2 == i)).map Prod.fst).take 3) with
  | error e => rw [hc] at h; cases h
  | ok exs =>
      rw [hc] at h
      cases h
      exact ⟨rfl, rfl⟩

theorem recLoop_count_map (topKw : Nat → List String) (col : List Cell)
    (labels : List Nat) (l : List Nat) (out : List ThemeRecord)
    (hok : recLoop (mkRecord topKw col labels) l = .ok out) :
    out.map ThemeRecord.count = l.map (fun i => labels.countP (fun x => x == i)) := by
  induction l generalizing out with
  | nil => simp only [recLoop] at hok; cases hok; rfl
  | cons i is ih =>
      simp only [recLoop] at hok
      cases hfi : mkRecord topKw col labels i with
      | error e => rw [hfi] at hok; cases hok
      | ok r0 =>
          rw [hfi] at hok
          cases hrest : recLoop (mkRecord topKw col labels) is with
          | error e => rw [hrest] at hok; cases hok
          | ok rs =>
              rw [hrest] at hok
              cases hok
              simp only [List.map_cons]
              rw [ih rs hrest, (mkRecord_ok topKw col labels i r0 hfi).2]

/-- Inversion of a successful `extract_themes` run. -/
theorem extractThemes_ok_inv (vectorize : List String → Except PyErr Unit)
    (kmLabels : List String → Nat → List Nat) (topKw : Nat → List String)
    (df : DF) (textCol : String) (nThemes : Nat) (df' : DF)
    (themes : List ThemeRecord)
    (hok : extractThemes vectorize kmLabels topKw df textCol nThemes =
           .ok (df', themes)) :
    ∃ col records,
      df.getCol textCol = some col ∧
      0 < effectiveThemeCount (col.map Cell.fillStr).length nThemes ∧
      effectiveThemeCount (col.map Cell.fillStr).length nThemes ≤
        (col.map Cell.fillStr).length ∧
      df' = df.setCol "theme_id"
        ((kmLabels (col.map Cell.fillStr)
            (effectiveThemeCount (col.map Cell.fillStr).length nThemes)).map
          (fun l => Cell.i (Int.ofNat l))) ∧
      recLoop (mkRecord topKw col
          (kmLabels (col.map Cell.fillStr)
            (effectiveThemeCount (col.map Cell.fillStr).length nThemes)))
        (List.range (effectiveThemeCount (col.map Cell.fillStr).length nThemes)) =
        .ok records ∧
      themes = sortBy (fun a b => decide (b.count ≤ a.count)) records := by
  unfold extractThemes at hok
  cases hcol : df.getCol textCol with
  | none => rw [hcol] at hok; simp at hok
  | some col =>
      rw [hcol] at hok
      dsimp only at hok
      cases hvec : vectorize (col.map Cell.fillStr) with
      | error e => rw [hvec] at hok; simp at hok
      | ok u =>
          rw [hvec] at hok
          dsimp only at hok
          by_cases hguard : effectiveThemeCount (col.map Cell.fillStr).length nThemes = 0 ∨
              (col.map Cell.fillStr).length <
                effectiveThemeCount (col.map Cell.fillStr).length nThemes
          · rw [if_pos hguard] at hok; simp at hok
          · rw [if_neg hguard] at hok
            cases hrec : recLoop (mkRecord topKw col
                (kmLabels (col.map Cell.fillStr)
                  (effectiveThemeCount (col.map Cell.fillStr).length nThemes)))
                (List.range (effectiveThemeCount (col.map Cell.fillStr).length nThemes)) with
            | error e => rw [hrec] at hok; simp at hok
            | ok records =>
                rw [hrec] at hok
                dsimp only at hok
                cases hsort : sortBy (fun a b => decide (b.count ≤ a.count)) records with
                | nil => rw [hsort] at hok; simp at hok
                | cons t ts =>
                    rw [hsort] at hok
                    dsimp only at hok
                    injection hok with hpair
                    injection hpair with h1 h2
                    push_neg at hguard
                    exact ⟨col, records, rfl, Nat.pos_of_ne_zero hguard.1,
                      hguard.2, h1.symm, hrec,
                      h2.symm.trans hsort.symm⟩

/-! ## Claim theorems -/

/-- C1 (counterexample): the intent classifier does NOT count each pattern
at most once per question.  On "total total why describe" the combined
`findall` counts the quantitative pattern `\btotal\b` twice, producing a
2–2 tie resolved to "quant" by the tie-break word "total", while the
claim's at-most-once counting scores it 1–2 and yields "qual". -/
theorem claim_C1_counterexample :
    classify "total total why describe" = "quant" ∧
    classifyClaim "total total why describe" = "qual" ∧
    classify "total total why describe" ≠
      classifyClaim "total total why describe" := by
  refine ⟨by decide, by decide, by decide⟩

/-- C1 (amended): for every question the classifier counts every
non-overlapping occurrence found by scanning the combined pattern
alternation left to right (so one pattern may contribute several times,
and an earlier alternative can consume text a later one would match); the
list with strictly more occurrences wins, and on a tie the result is
"quant" exactly when one of the words how/many/count/total/top/which/show
occurs (with word boundaries, case-insensitively), otherwise "qual". -/
theorem claim_C1_amended (q : String) :
    (classify q = "quant" ∨ classify q = "qual") ∧
    (classify q = "quant" ↔
      (findallCount QUAL_PATS q < findallCount QUANT_PATS q ∨
        (findallCount QUANT_PATS q = findallCount QUAL_PATS q ∧
         reSearch TIE_PATS q = true))) := by
  unfold classify
  dsimp only
  split_ifs with h1 h2 h3
  · exact ⟨Or.inl rfl, ⟨fun _ => Or.inl h1, fun _ => rfl⟩⟩
  · refine ⟨Or.inr rfl, ⟨fun h => absurd h (by decide), ?_⟩⟩
    rintro (h | ⟨he, _⟩)
    · exact absurd h h1
    · omega
  · refine ⟨Or.inl rfl, ⟨fun _ => ?_, fun _ => rfl⟩⟩
    exact Or.inr ⟨by omega, h3⟩
  · refine ⟨Or.inr rfl, ⟨fun h => absurd h (by decide), ?_⟩⟩
    rintro (h | ⟨_, ht⟩)
    · exact absurd h h1
    · exact absurd ht h3

/-- C1 witness: the amended classification applied at a concrete
question. -/
theorem claim_C1_witness :
    classify "How many complaints are there in total?" = "quant" :=
  (claim_C1_amended "How many complaints are there in total?").2.mpr
    (Or.inl (by decide))

/-- C2: with fewer documents than requested themes the effective cluster
count becomes exactly `max 2 (N / 2)`, and clustering is never attempted
with more clusters than documents: for `N ≥ 2` the effective count is at
most `N`, and for `N < 2` the run aborts inside the vectoriser (whose
`min_df=2` makes the vocabulary empty, a `ValueError`) before the
clustering step is reached. -/
theorem claim_C2 :
    (∀ N K, N < K → effectiveThemeCount N K = max 2 (N / 2)) ∧
    (∀ N K, 2 ≤ N → effectiveThemeCount N K ≤ N) ∧
    (∀ (vectorize : List String → Except PyErr Unit)
       (kmLabels : List String → Nat → List Nat) (topKw : Nat → List String)
       (df : DF) (textCol : String) (nThemes : Nat) (col : List Cell),
       (∀ ts : List String, ts.length < 2 → vectorize ts = Except.error PyErr.valueErr) →
       df.getCol textCol = some col → (col.map Cell.fillStr).length < 2 →
       extractThemes vectorize kmLabels topKw df textCol nThemes =
         Except.error PyErr.valueErr) := by
  refine ⟨?_, ?_, ?_⟩
  · intro N K h
    unfold effectiveThemeCount
    rw [if_pos h]
  · intro N K h2
    unfold effectiveThemeCount
    split
    · exact max_le h2 (Nat.div_le_self N 2)
    · omega
  · intro vectorize kmLabels topKw df textCol nThemes col hv hcol hlen
    unfold extractThemes
    rw [hcol]
    dsimp only
    rw [hv _ hlen]

/-- C2 witness: a concrete reduction (N = 3 documents, K = 5 requested)
and a concrete under-provisioned run (one document) aborting with
`ValueError` before clustering. -/
theorem claim_C2_witness :
    effectiveThemeCount 3 5 = max 2 (3 / 2) ∧
    effectiveThemeCount 3 5 ≤ 3 ∧
    extractThemes vectWit kmWit kwWit dfSolo "text_clean" 5 =
      Except.error PyErr.valueErr :=
  ⟨claim_C2.1 3 5 (by decide), claim_C2.2.1 3 5 (by decide),
   claim_C2.2.2 vectWit kmWit kwWit dfSolo "text_clean" 5 [Cell.s "solo"]
     (fun ts h => by unfold vectWit; rw [if_pos h]) rfl (by decide)⟩

/-- C8: the theme labeler equals, on every input, the spec's description:
take the top 8 terms as a set, return the label of the first rule (in
fixed order) whose keyword set meets it, else join the two
highest-weighted terms title-cased with " & ". -/
theorem claim_C8 (topKeywords : List String) :
    autoLabel topKeywords = autoLabelSpec topKeywords := by
  simp only [autoLabel, autoLabelSpec]
  have hp : ∀ rule ∈ LABEL_RULES,
      (rule.1.any (fun w => (topKeywords.take 8).contains w))
        = decide (∃ w, w ∈ topKeywords.take 8 ∧ w ∈ rule.1) := by
    intro rule _
    apply Bool.eq_iff_iff.mpr
    simp only [List.any_eq_true, List.contains_eq_any_beq, beq_iff_eq,
      decide_eq_true_eq]
    constructor
    · rintro ⟨w, hwr, x, hx, hwx⟩
      subst hwx
      exact ⟨w, hx, hwr⟩
    · rintro ⟨w, hwk, hwr⟩
      exact ⟨w, hwr, w, hwk, rfl⟩
  rw [find?_congr _ _ LABEL_RULES hp]

theorem idxOf?_of_mem (l : List String) (name : String) (h : name ∈ l) :
    ∃ j, idxOf? l name = some j := by
  induction l with
  | nil => simp at h
  | cons c cs ih =>
      by_cases hc : c = name
      · exact ⟨0, by simp [idxOf?, hc]⟩
      · rcases List.mem_cons.mp h with h' | h'
        · exact absurd h'.symm hc
        · rcases ih h' with ⟨j, hj⟩
          exact ⟨j + 1, by simp [idxOf?, hc, hj]⟩

theorem getCol_length (df : DF) (name : String) (col : List Cell)
    (h : df.getCol name = some col) : col.length = df.rows.length := by
  unfold DF.getCol at h
  cases hidx : idxOf? df.cols name with
  | none => rw [hidx] at h; cases h
  | some j =>
      rw [hidx] at h
      simp only [Option.map_some'] at h
      cases h
      simp

theorem zipmap_get? (rows : List (List Cell)) (vals : List Cell)
    (hlen : vals.length = rows.length) (k : Nat) (hk : k < rows.length) :
    ∃ v r, rows.get? k = some r ∧
      ((rows.zip vals).map (fun p => p.1 ++ [p.2])).get? k = some (r ++ [v]) := by
  induction rows generalizing vals k with
  | nil => simp at hk
  | cons r rs ih =>
      cases vals with
      | nil => simp at hlen
      | cons v vs =>
          cases k with
          | zero => exact ⟨v, r, rfl, rfl⟩
          | succ k' =>
              have hlen' : vs.length = rs.length := by
                simpa using hlen
              have hk' : k' < rs.length := by simpa using hk
              rcases ih vs hlen' k' hk' with ⟨v', r', h1, h2⟩
              exact ⟨v', r', h1, h2⟩

/-- C3: every successful extraction assigns each document exactly one
integer theme id; each theme record's count is the number of rows carrying
its id, and the counts sum to the number of input documents.  The
hypotheses restate sklearn's `fit_predict` contract (one label per sample,
each below `n_clusters`) and pandas' rectangular-frame invariant. -/
theorem claim_C3 (vectorize : List String → Except PyErr Unit)
    (kmLabels : List String → Nat → List Nat) (topKw : Nat → List String)
    (df : DF) (textCol : String) (nThemes : Nat) (df' : DF)
    (themes : List ThemeRecord)
    (hwf : df.Rect)
    (hlab : ∀ ts k, (kmLabels ts k).length = ts.length ∧
            ∀ l ∈ kmLabels ts k, 0 < k → l < k)
    (hok : extractThemes vectorize kmLabels topKw df textCol nThemes =
           .ok (df', themes)) :
    (∃ labels : List Nat,
       df'.getCol "theme_id" = some (labels.map (fun l => Cell.i (Int.ofNat l))) ∧
       labels.length = df.rows.length ∧
       (∀ rec ∈ themes, rec.count = labels.countP (fun l => l == rec.theme_id)) ∧
       (∀ rec ∈ themes,
         rec.count = df'.countWhere "theme_id" (Cell.i (Int.ofNat rec.theme_id)))) ∧
    (themes.map ThemeRecord.count).sum = df.rows.length := by
  obtain ⟨col, records, hcol, hn0, hnle, hdf', hrec, hthemes⟩ :=
    extractThemes_ok_inv _ _ _ _ _ _ _ _ hok
  have hcollen : col.length = df.rows.length := getCol_length df textCol col hcol
  have hlablen : (kmLabels (col.map Cell.fillStr)
      (effectiveThemeCount (col.map Cell.fillStr).length nThemes)).length
      = df.rows.length := by
    rw [(hlab _ _).1, List.length_map, hcollen]
  have hbound : ∀ l ∈ kmLabels (col.map Cell.fillStr)
      (effectiveThemeCount (col.map Cell.fillStr).length nThemes),
      l < effectiveThemeCount (col.map Cell.fillStr).length nThemes :=
    fun l hl => (hlab _ _).2 l hl hn0
  have hgetcol : df'.getCol "theme_id" = some ((kmLabels (col.map Cell.fillStr)
      (effectiveThemeCount (col.map Cell.fillStr).length nThemes)).map
        (fun l => Cell.i (Int.ofNat l))) := by
    rw [hdf']
    exact setCol_getCol df _ _ hwf (by rw [List.length_map]; exact hlablen)
  have hperm : themes.Perm records := hthemes ▸ sortBy_perm _ records
  have hcount : ∀ rec ∈ themes, rec.count = (kmLabels (col.map Cell.fillStr)
      (effectiveThemeCount (col.map Cell.fillStr).length nThemes)).countP
        (fun l => l == rec.theme_id) := by
    intro rec hrecmem
    obtain ⟨i, _, hfi⟩ :=
      recLoop_ok_mem _ _ _ hrec rec (hperm.mem_iff.mp hrecmem)
    obtain ⟨hid, hcnt⟩ := mkRecord_ok _ _ _ _ _ hfi
    rw [hid]
    exact hcnt
  refine ⟨⟨_, hgetcol, hlablen, hcount, ?_⟩, ?_⟩
  · intro rec hrecmem
    rw [hcount rec hrecmem]
    unfold DF.countWhere
    rw [hgetcol]
    simp only [Option.getD_some, List.countP_map]
    apply List.countP_congr
    intro l _
    simp [Function.comp, beq_iff_eq, Cell.i.injEq]
  · have h1 : (themes.map ThemeRecord.count).sum
        = (records.map ThemeRecord.count).sum :=
      (hperm.map ThemeRecord.count).sum_eq
    rw [h1, recLoop_count_map _ _ _ _ _ hrec, sum_range_countP _ _ hbound, hlablen]

/-- C3 witness: on the two-document fixture the extraction succeeds, the
counts are per-id row counts, and they sum to the document count. -/
theorem claim_C3_witness :
    extractThemes vectWit kmWit kwWit dfPair "text_clean" 2 =
      .ok (dfPairOut, themesPairOut) ∧
    (themesPairOut.map ThemeRecord.count).sum = dfPair.rows.length :=
  ⟨rfl,
   (claim_C3 vectWit kmWit kwWit dfPair "text_clean" 2 dfPairOut themesPairOut
      (by unfold DF.Rect; decide)
      (fun ts k => ⟨by simp [kmWit],
        fun l hl hk => by
          simp only [kmWit, List.mem_map] at hl
          rcases hl with ⟨a, _, rfl⟩
          exact hk⟩)
      rfl).2⟩

/-- C10: a successful extraction mutates the input frame only by appending
the single new column `theme_id` at the right edge: the column list gains
exactly that name, the row count and row order are unchanged, every
preexisting column reads back unchanged, and each row is its old self plus
one appended cell. -/
theorem claim_C10 (vectorize : List String → Except PyErr Unit)
    (kmLabels : List String → Nat → List Nat) (topKw : Nat → List String)
    (df : DF) (textCol : String) (nThemes : Nat) (df' : DF)
    (themes : List ThemeRecord)
    (hwf : df.Rect)
    (hnew : "theme_id" ∉ df.cols)
    (hlen : ∀ ts k, (kmLabels ts k).length = ts.length)
    (hok : extractThemes vectorize kmLabels topKw df textCol nThemes =
           .ok (df', themes)) :
    df'.cols = df.cols ++ ["theme_id"] ∧
    df'.rows.length = df.rows.length ∧
    (∀ name ∈ df.cols, df'.getCol name = df.getCol name) ∧
    (∀ k, k < df.rows.length →
      ∃ v r, df.rows.get? k = some r ∧ df'.rows.get? k = some (r ++ [v])) := by
  obtain ⟨col, records, hcol, hn0, hnle, hdf', hrec, hthemes⟩ :=
    extractThemes_ok_inv _ _ _ _ _ _ _ _ hok
  have hcollen : col.length = df.rows.length := getCol_length df textCol col hcol
  have hvlen : ((kmLabels (col.map Cell.fillStr)
      (effectiveThemeCount (col.map Cell.fillStr).length nThemes)).map (fun l => Cell.i (Int.ofNat l))).length
      = df.rows.length := by
    rw [List.length_map, hlen, List.length_map, hcollen]
  have hidxnone : idxOf? df.cols "theme_id" = none :=
    idxOf?_of_not_mem df.cols "theme_id" hnew
  rw [hdf']
  unfold DF.setCol
  rw [hidxnone]
  refine ⟨rfl, ?_, ?_, ?_⟩
  · rw [List.length_map, List.length_zip, hvlen]
    exact Nat.min_self _
  · intro name hname
    rcases idxOf?_of_mem df.cols name hname with ⟨j, hj⟩
    have hjlt : j < df.cols.length := idxOf?_lt_length _ _ _ hj
    unfold DF.getCol
    simp only
    rw [idxOf?_append_of_some df.cols ["theme_id"] name j hj, hj]
    simp only [Option.map_some']
    congr 1
    rw [List.map_map]
    have hcongr : (df.rows.zip ((kmLabels (col.map Cell.fillStr)
          (effectiveThemeCount (col.map Cell.fillStr).length nThemes)).map (fun l => Cell.i (Int.ofNat l)))).map
          ((fun r => r.getD j Cell.na) ∘ (fun p => p.1 ++ [p.2]))
        = (df.rows.zip ((kmLabels (col.map Cell.fillStr)
          (effectiveThemeCount (col.map Cell.fillStr).length nThemes)).map (fun l => Cell.i (Int.ofNat l)))).map
          ((fun r => r.getD j Cell.na) ∘ Prod.fst) := by
      apply List.map_congr_left
      rintro ⟨r, v⟩ hp
      have hr : r ∈ df.rows := (List.of_mem_zip hp).1
      have hrl : j < r.length := by rw [hwf r hr]; exact hjlt
      simp only [Function.comp]
      simp only [List.getD_eq_getElem?_getD, List.getElem?_append_left hrl]
    rw [hcongr, ← List.map_map]
    rw [List.map_fst_zip _ _ (le_of_eq hvlen.symm)]
  · intro k hk
    exact zipmap_get? df.rows _ hvlen k hk

/-- C10 witness: the concrete two-document run appends exactly the
`theme_id` column and leaves the preexisting column and rows unchanged. -/
theorem claim_C10_witness :
    dfPairOut.cols = dfPair.cols ++ ["theme_id"] ∧
    dfPairOut.rows.length = dfPair.rows.length ∧
    (∀ name ∈ dfPair.cols, dfPairOut.getCol name = dfPair.getCol name) :=
  (by
    have h := claim_C10 vectWit kmWit kwWit dfPair "text_clean" 2 dfPairOut
      themesPairOut (by unfold DF.Rect; decide) (by decide)
      (fun ts k => by simp [kmWit]) rfl
    exact ⟨h.1, h.2.1, h.2.2.1⟩)

/-- C7: the offline completion fallback is a pure function of the prompt:
it keeps at most 4 processed bullet lines; with no qualifying line it
returns the fixed templated recommendation, and with exactly three it
returns the bulleted template — which contains each of the three examples
truncated to 120 characters and the offline provenance tag. -/
theorem claim_C7 (prompt : String) :
    (noKeyExamples prompt = [] → noKey prompt = NOKEY_EMPTY) ∧
    (noKeyExamples prompt).length ≤ 4 ∧
    ((noKeyExamples prompt).length = 3 →
      noKey prompt = noKeyResponse (noKeyExamples prompt) ∧
      (∀ e ∈ noKeyExamples prompt,
        strContains (noKey prompt) (noKeyBullet e) = true) ∧
      strContains (noKey prompt) NOKEY_TAG = true) := by
  refine ⟨?_, ?_, ?_⟩
  · intro h
    unfold noKey
    rw [h]
  · unfold noKeyExamples
    rw [List.length_take]
    exact min_le_left _ _
  · intro h3
    obtain ⟨e1, e2, e3, hes⟩ := List.length_eq_three.mp h3
    have hnk : noKey prompt = noKeyResponse [e1, e2, e3] := by
      unfold noKey
      rw [hes]
    have hint : String.intercalate "\n"
        [noKeyBullet e1, noKeyBullet e2, noKeyBullet e3]
        = noKeyBullet e1 ++ "\n" ++ noKeyBullet e2 ++ "\n" ++ noKeyBullet e3 := rfl
    refine ⟨by rw [hnk, hes], ?_, ?_⟩
    · intro e he
      rw [hes] at he
      rw [hnk]
      apply (strContains_iff _ _).mpr
      simp only [List.mem_cons, List.not_mem_nil, or_false] at he
      rcases he with he | he | he
      · subst he
        refine ⟨NOKEY_HEADER.data,
          ("\n" ++ noKeyBullet e2 ++ "\n" ++ noKeyBullet e3 ++
            NOKEY_RECO ++ NOKEY_TAG).data, ?_⟩
        simp only [noKeyResponse, List.map_cons, List.map_nil, hint,
          String.data_append, List.append_assoc]
      · subst he
        refine ⟨(NOKEY_HEADER ++ noKeyBullet e1 ++ "\n").data,
          ("\n" ++ noKeyBullet e3 ++ NOKEY_RECO ++ NOKEY_TAG).data, ?_⟩
        simp only [noKeyResponse, List.map_cons, List.map_nil, hint,
          String.data_append, List.append_assoc]
      · subst he
        refine ⟨(NOKEY_HEADER ++ noKeyBullet e1 ++ "\n" ++ noKeyBullet e2 ++ "\n").data,
          (NOKEY_RECO ++ NOKEY_TAG).data, ?_⟩
        simp only [noKeyResponse, List.map_cons, List.map_nil, hint,
          String.data_append, List.append_assoc]
    · rw [hnk]
      apply (strContains_iff _ _).mpr
      apply List.IsSuffix.isInfix
      refine ⟨(NOKEY_HEADER ++ (noKeyBullet e1 ++ "\n" ++ noKeyBullet e2 ++ "\n" ++
        noKeyBullet e3) ++ NOKEY_RECO).data, ?_⟩
      simp only [noKeyResponse, List.map_cons, List.map_nil, hint,
        String.data_append, List.append_assoc]

/-- C7 witness: a prompt with exactly three qualifying bulleted lines, and
one with none. -/
theorem claim_C7_witness :
    (noKeyExamples promptWit).length = 3 ∧
    noKey promptWit = noKeyResponse (noKeyExamples promptWit) ∧
    strContains (noKey promptWit) NOKEY_TAG = true ∧
    noKeyExamples "Provide a concise analysis" = [] ∧
    noKey "Provide a concise analysis" = NOKEY_EMPTY :=
  ⟨rfl, ((claim_C7 promptWit).2.2 rfl).1, ((claim_C7 promptWit).2.2 rfl).2.2,
   rfl, (claim_C7 "Provide a concise analysis").1 rfl⟩

/-- C5 (counterexample): asked "how many complaints by channel" on a
channel-less dataset, the handler matches the count patterns FIRST
(`\bhow many\b`) and returns the total-count answer with a non-empty data
payload and no "not found" text — not the channel-missing answer the claim
requires. -/
theorem claim_C5_counterexample :
    quantHandle fmtPctWit ⟨dfNoChannel, [], none⟩ "how many complaints by channel" =
      .ok { answer := "There are **3** complaints in the dataset.",
            data := some (.dict [("total_complaints", .int 3)]),
            confidence := "Based on all 3 rows" } ∧
    strContains "There are **3** complaints in the dataset." "not found" = false ∧
    (PVal.dict [("total_complaints", PVal.int 3)] ≠ PVal.dict []) := by
  refine ⟨rfl, rfl, ?_⟩
  intro h
  injection h with h'
  simp at h'

/-- C5 (amended): on a dataset with no "channel" column, a question that
reaches the channel dispatch (it matches the channel patterns and none of
the earlier count/theme patterns — e.g. "complaints by channel") returns,
without raising, the explanatory `No channel column found` answer with an
empty data payload; "how many complaints by channel" itself routes to the
count query instead. -/
theorem claim_C5_amended (fmtPct : Nat → Nat → String) (st : QuantState)
    (query : String)
    (hch : st.df.getCol "channel" = none)
    (hq1 : reSearch CNT_PATS (lowerStr query) = false)
    (hq2 : reSearch TOPTHEME_PATS (lowerStr query) = false)
    (hq3 : reSearch THEME_PATS (lowerStr query) = false)
    (hq4 : reSearch CHANNEL_PATS (lowerStr query) = true) :
    quantHandle fmtPct st query =
      .ok { answer := "No `channel` column found in the dataset.",
            data := some (.dict []), confidence := "N/A" } := by
  unfold quantHandle
  dsimp only
  rw [hq1, hq2, hq3, hq4]
  simp only [Bool.false_eq_true, if_false, if_true]
  unfold channelQuery
  rw [hch]

/-- C5 witness: the channel question "complaints by channel" on the
concrete channel-less frame. -/
theorem claim_C5_witness :
    quantHandle fmtPctWit ⟨dfNoChannel, [], none⟩ "complaints by channel" =
      .ok { answer := "No `channel` column found in the dataset.",
            data := some (.dict []), confidence := "N/A" } :=
  claim_C5_amended fmtPctWit ⟨dfNoChannel, [], none⟩ "complaints by channel"
    rfl rfl rfl rfl rfl

/-- C4 (counterexample): a row whose date fails to parse is NOT excluded
from the trend: it is grouped under the literal period string "NaT"
(`to_datetime(errors="coerce")` yields `NaT`, and `astype(str)` turns it
into a perfectly groupable string).  With one parsable and one garbage
date the monthly trend has two groups, one of them "NaT". -/
theorem claim_C4_counterexample :
    parseWit "garbage" = none ∧
    trendQuery (mkQuantState parseWit dfDate []) "trend" =
      .ok { answer := "**Complaint trend (monthly):**\n  - **2024-01**: 1\n  - **NaT**: 1",
            data := some (.list
              [.dict [("period", .str "2024-01"), ("count", .int 1)],
               .dict [("period", .str "NaT"), ("count", .int 1)]]),
            confidence := "Based on 2 complaints across 2 monthly periods" } :=
  ⟨rfl, rfl⟩

theorem cellParse_some (parse : String → Option PDate) (c : Cell) (d : PDate)
    (h : cellParse parse c = some d) : ∃ s, parse s = some d := by
  cases c with
  | s v => exact ⟨v, h⟩
  | i n => exact ⟨toString n, h⟩
  | na => cases h

theorem count_NaT_month (parse : String → Option PDate)
    (hparse : ∀ s d, parse s = some d → d.month ≠ "NaT") (cells : List Cell) :
    (cells.map (cellMonth parse)).count "NaT"
      = cells.countP (fun c => (cellParse parse c).isNone) := by
  rw [List.count_eq_countP, List.countP_map]
  apply List.countP_congr
  intro c _
  simp only [Function.comp, beq_iff_eq, Option.isNone_iff_eq_none]
  unfold cellMonth
  cases hp : cellParse parse c with
  | none => simp
  | some d =>
      simp only
      obtain ⟨s, hs⟩ := cellParse_some parse c d hp
      have := hparse s d hs
      constructor
      · intro h; exact absurd h this
      · intro h; cases h

theorem count_NaT_week (parse : String → Option PDate)
    (hparse : ∀ s d, parse s = some d → d.week ≠ "NaT") (cells : List Cell) :
    (cells.map (cellWeek parse)).count "NaT"
      = cells.countP (fun c => (cellParse parse c).isNone) := by
  rw [List.count_eq_countP, List.countP_map]
  apply List.countP_congr
  intro c _
  simp only [Function.comp, beq_iff_eq, Option.isNone_iff_eq_none]
  unfold cellWeek
  cases hp : cellParse parse c with
  | none => simp
  | some d =>
      simp only
      obtain ⟨s, hs⟩ := cellParse_some parse c d hp
      have := hparse s d hs
      constructor
      · intro h; exact absurd h this
      · intro h; cases h

/-- C4 (amended): a trend query groups by month by default and by week
exactly when the (lowered) question contains "week"; no row causes a
failure, but rows with unparsable dates are NOT excluded — they form
their own "NaT" period group, so the group counts still sum to the full
row count of the date column and the "NaT" group size equals the number
of unparsable dates. -/
theorem claim_C4_amended (parse : String → Option PDate) (df : DF)
    (themes : List ThemeRecord) (q : String) (dateCells : List Cell)
    (hdate : df.getCol "date" = some dateCells)
    (hparse : ∀ s d, parse s = some d → d.month ≠ "NaT" ∧ d.week ≠ "NaT") :
    ∃ r, trendQuery (mkQuantState parse df themes) q = .ok r ∧
      ((strContains q "week" = true →
         r.data = some (.list ((groupbySize (dateCells.map (cellWeek parse))).map
           (fun p => .dict [("period", .str p.1), ("count", .int p.2)])))) ∧
       (strContains q "week" = false →
         r.data = some (.list ((groupbySize (dateCells.map (cellMonth parse))).map
           (fun p => .dict [("period", .str p.1), ("count", .int p.2)]))))) ∧
      ((groupbySize (dateCells.map (cellMonth parse))).map Prod.snd).sum
        = dateCells.length ∧
      ((groupbySize (dateCells.map (cellWeek parse))).map Prod.snd).sum
        = dateCells.length ∧
      (dateCells.map (cellMonth parse)).count "NaT"
        = dateCells.countP (fun c => (cellParse parse c).isNone) ∧
      (dateCells.map (cellWeek parse)).count "NaT"
        = dateCells.countP (fun c => (cellParse parse c).isNone) := by
  have hmw : (mkQuantState parse df themes).monthW
      = some (dateCells.map (cellMonth parse), dateCells.map (cellWeek parse)) := by
    unfold mkQuantState
    rw [hdate]
  have hsum1 : ((groupbySize (dateCells.map (cellMonth parse))).map Prod.snd).sum
      = dateCells.length := by
    rw [groupbySize_snd_sum, List.length_map]
  have hsum2 : ((groupbySize (dateCells.map (cellWeek parse))).map Prod.snd).sum
      = dateCells.length := by
    rw [groupbySize_snd_sum, List.length_map]
  have hm := count_NaT_month parse (fun s d h => (hparse s d h).1) dateCells
  have hw := count_NaT_week parse (fun s d h => (hparse s d h).2) dateCells
  unfold trendQuery
  rw [hmw]
  dsimp only
  cases hwk : strContains q "week" with
  | true =>
      exact ⟨_, rfl, ⟨fun _ => rfl, fun h => by cases h⟩, hsum1, hsum2, hm, hw⟩
  | false =>
      refine ⟨_, rfl, ⟨fun h => ?_, fun _ => ?_⟩, hsum1, hsum2, hm, hw⟩
      · cases h
      · rfl

/-- C4 witness: the two-row fixture (one ISO date, one garbage date) with
a month-mode question. -/
theorem claim_C4_witness :
    ∃ r, trendQuery (mkQuantState parseWit dfDate []) "trend" = .ok r ∧
      ((groupbySize ([Cell.s "2024-01-15", Cell.s "garbage"].map (cellMonth parseWit))).map
        Prod.snd).sum = 2 ∧
      ([Cell.s "2024-01-15", Cell.s "garbage"].map (cellMonth parseWit)).count "NaT" = 1 := by
  have h := claim_C4_amended parseWit dfDate [] "trend"
    [Cell.s "2024-01-15", Cell.s "garbage"] rfl
    (by
      intro s d hsd
      unfold parseWit at hsd
      by_cases hs : s = "2024-01-15"
      · rw [if_pos hs] at hsd
        cases hsd
        exact ⟨by decide, by decide⟩
      · rw [if_neg hs] at hsd
        cases hsd)
  obtain ⟨r, h1, _, h3, _, h5, _⟩ := h
  exact ⟨r, h1, by rw [h3]; rfl, by rw [h5]; rfl⟩

/-- C6 (counterexample): zero examples do NOT occur only on an empty
pool.  A one-row pool whose `text_clean` is null yields no keyword match,
falls back to the (non-empty) full pool, but `dropna()` then removes the
only row's text, so the handler returns the fixed "no relevant
complaints" answer with zero examples over a non-empty pool. -/
theorem claim_C6_counterexample :
    dfNaTxt.rows.length = 1 ∧
    qualHandle envWit ⟨dfNaTxt, []⟩ "what about refunds" =
      .ok { answer := NO_RELEVANT, examples := some [],
            confidence := "1 matching complaints retrieved (showing top 0)",
            llm_mode := some "no-key" } :=
  ⟨rfl, rfl⟩

/-- C6 (amended): the retrieval keeps the pool rows whose text-pool cell
contains some extracted keyword; with no keywords or no matching row the
entire pool is kept (`qualMatched` states exactly this selection).  Zero
examples occur exactly when the retained rows contain no non-null display
text — in particular whenever the pool is empty, and then the fixed
"no relevant complaints" answer is returned with the `no-key` provenance
and no completion call (the result is the same for every completion
environment). -/
theorem claim_C6_amended (env : LLMEnv) (st : QualState) (query : String)
    (pool matched : DF) (j : Nat) (cells : List Cell)
    (hpool : qualPool st.df st.themes (lowerStr query) = Except.ok pool)
    (hj : idxOf? pool.cols (textPoolName st.df pool) = some j)
    (hmatched : matched = qualMatched query pool j)
    (hcells : matched.getCol (qualTextCol st.df) = some cells) :
    retrieve st query = Except.ok ((cells.filterMap cellText?).take 8,
      commaFmt matched.rows.length ++ " matching complaints retrieved (showing top " ++
      toString (min ((cells.filterMap cellText?).take 8).length 8) ++ ")") ∧
    ((cells.filterMap cellText?).take 8 = [] ↔ ∀ c ∈ cells, cellText? c = none) ∧
    (pool.rows = [] →
      qualHandle env st query = Except.ok
        { answer := NO_RELEVANT, examples := some [],
          confidence := commaFmt matched.rows.length ++
            " matching complaints retrieved (showing top " ++
            toString (min ((cells.filterMap cellText?).take 8).length 8) ++ ")",
          llm_mode := some "no-key" }) := by
  have hA : retrieve st query = Except.ok ((cells.filterMap cellText?).take 8,
      commaFmt matched.rows.length ++ " matching complaints retrieved (showing top " ++
      toString (min ((cells.filterMap cellText?).take 8).length 8) ++ ")") := by
    unfold retrieve
    dsimp only
    rw [hpool]
    dsimp only
    by_cases hkw : (qualKeywords (lowerStr query)).isEmpty
    · rw [if_pos hkw]
      dsimp only
      have hqm : matched = if pool.rows.isEmpty then pool else pool := by
        rw [hmatched]
        unfold qualMatched
        dsimp only
        rw [if_pos hkw]
      rw [← hqm, hcells]
    · rw [if_neg hkw]
      rw [hj]
      dsimp only
      have hqm : matched =
          if (kwFiltered (qualKeywords (lowerStr query)) pool j).rows.isEmpty then pool
          else kwFiltered (qualKeywords (lowerStr query)) pool j := by
        rw [hmatched]
        unfold qualMatched
        dsimp only
        rw [if_neg hkw]
      rw [← hqm, hcells]
  refine ⟨hA, ?_, ?_⟩
  · rw [List.take_eq_nil_iff]
    constructor
    · rintro (h8 | hfm)
      · exact absurd h8 (by decide)
      · exact List.filterMap_eq_nil_iff.mp hfm
    · intro h
      exact Or.inr (List.filterMap_eq_nil_iff.mpr h)
  · intro hpe
    have hc0 : cells = [] := by
      have hmp : matched = pool := by
        rw [hmatched]
        unfold qualMatched
        dsimp only
        have hemp : pool.rows.isEmpty = true := by
          rw [hpe]; rfl
        by_cases hkw : (qualKeywords (lowerStr query)).isEmpty
        · rw [if_pos hkw, if_pos hemp]
        · rw [if_neg hkw]
          have h0 : (kwFiltered (qualKeywords (lowerStr query)) pool j).rows.isEmpty = true := by
            unfold kwFiltered
            rw [hpe]
            rfl
          rw [if_pos h0]
      rw [hmp] at hcells
      unfold DF.getCol at hcells
      cases hidx : idxOf? pool.cols (qualTextCol st.df) with
      | none => rw [hidx] at hcells; cases hcells
      | some jj =>
          rw [hidx] at hcells
          simp only [Option.map_some'] at hcells
          rw [hpe] at hcells
          simp only [List.map_nil, Option.some.injEq] at hcells
          exact hcells.symm
    unfold qualHandle
    rw [hA]
    dsimp only
    rw [hc0]
    rfl

/-- C6 witness: a two-row pool and the question "tell me about password
problems"; only the row containing "password" is retained and surfaced. -/
theorem claim_C6_witness :
    retrieve (⟨dfPairQ, []⟩ : QualState) "tell me about password problems" =
      Except.ok ((([Cell.s "password reset problem"].filterMap cellText?).take 8),
        commaFmt (qualMatched "tell me about password problems" dfPairQ 0).rows.length ++
        " matching complaints retrieved (showing top " ++
        toString (min (([Cell.s "password reset problem"].filterMap cellText?).take 8).length 8) ++
        ")") :=
  (claim_C6_amended envWit ⟨dfPairQ, []⟩ "tell me about password problems" dfPairQ
     (qualMatched "tell me about password problems" dfPairQ 0) 0
     [Cell.s "password reset problem"] rfl rfl rfl rfl).1

/-- C9: the program violates the claim.  The per-theme lines of
`_top_themes_query` index `itertuples()` namedtuples with strings
(`row['label']`, quant_handler.py line 88), so any query dispatched to
the top-themes/all-themes branch raises `TypeError` whenever the themes
table is non-empty — including "What are the top complaint themes?", the
program's own advertised example question, and the interactive loop has
no exception handler around `Router.answer`, so the session terminates.
A second failure mode: with an empty cleaned dataset and a non-empty
themes table (the CSV-loading entry point checks neither), a theme-count
question divides by the zero row count, a `ZeroDivisionError`. -/
theorem claim_C9_bug :
    routerAnswer fmtPctWit envWit parseWit dfQ9 themesOne
      "What are the top complaint themes?" = Except.error PyErr.typeErr ∧
    routerAnswer fmtPctWit envWit parseWit dfEmptyRows themesOne
      "how many theme complaints" = Except.error PyErr.zeroDiv :=
  ⟨rfl, rfl⟩


end CX
